import Mathlib

/-!
Shallow embedding of the Connection Resilience & Session Maintenance Core
of `src/index.js` (BMX-BOT). Pure functions are translated directly; the
stateful parts (the `viewedStatus` set with its per-entry deletion timers,
the reconnect scheduling, the maintenance intervals) are modelled as
explicit state passing, with JS side effects reified as command/effect
lists. Machine times and durations are `Nat` milliseconds.
-/

namespace BMXBot

/-! Constants (src/index.js lines 15-20) and the Baileys logged-out status
code used by `handleConnectionUpdate`. -/

def MAX_VIEWED_STATUS_SIZE : Nat := 1000
def STATUS_CLEANUP_INTERVAL : Nat := 3600000
def MAX_RETRY_ATTEMPTS : Nat := 5
def PRESENCE_UPDATE_INTERVAL : Nat := 60000
def STATUS_SYNC_INTERVAL : Nat := 300000

def DisconnectReason_loggedOut : Nat := 401

/-- Configuration object (`./settings`). Fields that JS may leave
`undefined` are `Option`; flag fields are `Bool`. -/
structure Config where
  botName : Option String
  ownerNumber : Option String
  reconnectDelay : Option Nat
  pairingDelay : Option Nat
  autoViewStatus : Bool
  autoReactStatus : Bool
  statusReactionEmoji : Option String
  antiDelete : Bool
  antiCall : Bool
deriving Repr, DecidableEq

/-- JS truthiness of an optional string: `undefined` and `""` are falsy. -/
def truthyStr : Option String → Bool
  | some s => !s.isEmpty
  | none => false

/-- JS truthiness of an optional number: `undefined` and `0` are falsy. -/
def truthyNat : Option Nat → Bool
  | some n => n != 0
  | none => false

/-- `formatPhoneNumber` (line 28): strip all non-digit characters. -/
def formatPhoneNumber (phone : String) : String :=
  String.mk (phone.data.filter Char.isDigit)

/-- The regex `^\d{10,15}$` from `validateConfig` (line 44). -/
def isValidOwnerNumber (s : String) : Bool :=
  decide (10 ≤ s.length) && decide (s.length ≤ 15) && s.all Char.isDigit

/-- `validateConfig` (lines 36-47): throws when a required key is falsy or
the owner number fails the digit-count regex. -/
def validateConfig (cfg : Config) : Except String Unit :=
  let missing :=
    (if truthyStr cfg.botName then [] else ["botName"]) ++
    (if truthyStr cfg.ownerNumber then [] else ["ownerNumber"]) ++
    (if truthyNat cfg.reconnectDelay then [] else ["reconnectDelay"])
  if missing.length > 0 then
    Except.error ("Missing required config: " ++ String.intercalate ", " missing)
  else if truthyStr cfg.ownerNumber && !isValidOwnerNumber (cfg.ownerNumber.getD "") then
    Except.error "Invalid owner number format"
  else
    Except.ok ()

/-! The dedup cache. The JS `viewedStatus` Set iterates in insertion
order; we model it as a duplicate-free list in insertion order, together
with the pending `setTimeout(() => viewedStatus.delete(id), TTL)` deletion
timers, each recorded as `(id, absolute fire time)`. -/

/-- `cleanupViewedStatus` (lines 49-57): when the set exceeds `cap`,
delete the oldest-inserted entries until exactly `cap` remain. -/
def cleanupViewedStatus (l : List String) (cap : Nat) : List String :=
  if l.length > cap then l.drop (l.length - cap) else l

structure CacheState where
  entries : List String
  timers : List (String × Nat)
deriving Repr, DecidableEq

/-- Fire every deletion timer due at or before `now`: each due timer
deletes its own id from the set (idempotently), and is removed from the
pending list. -/
def fireDue (now : Nat) (s : CacheState) : CacheState :=
  { entries := (s.timers.filter (fun p => p.2 ≤ now)).foldl (fun es p => es.erase p.1) s.entries
    timers := s.timers.filter (fun p => !(p.2 ≤ now)) }

/-- The dedup steps of `handleStatusView` (lines 101-106): the
has-check, the `add`, `cleanupViewedStatus()`, and scheduling the
per-entry deletion `ttl` ms after insertion. Returns `true` exactly when
the id was not already present (the side-effecting branch runs). -/
def observeOnce (t : Nat) (id : String) (cap ttl : Nat) (s : CacheState) :
    CacheState × Bool :=
  if id ∈ s.entries then (s, false)
  else
    ({ entries := cleanupViewedStatus (s.entries ++ [id]) cap
       timers := s.timers ++ [(id, t + ttl)] }, true)

/-- Run a time-ordered list of `(id, time)` observations from a state,
firing due deletion timers before each observation. -/
def runObs (cap ttl : Nat) (s : CacheState) : List (String × Nat) → CacheState
  | [] => s
  | (id, t) :: rest => runObs cap ttl (observeOnce t id cap ttl (fireDue t s)).1 rest

/-! Messages and the handlers of the event layer. Outbound side effects
are reified as `Effect`s. -/

structure MsgKey where
  remoteJid : Option String
  id : String
  participant : Option String
deriving Repr, DecidableEq

structure ProtocolMessage where
  type : Nat
  keyRemoteJid : Option String
deriving Repr, DecidableEq

structure MsgContent where
  protocolMessage : Option ProtocolMessage
deriving Repr, DecidableEq

structure Msg where
  key : MsgKey
  message : Option MsgContent
deriving Repr, DecidableEq

inductive Effect
  | readMessages (id : String)
  | reactStatus (id : String) (emoji : String)
  | antiDeleteAlert (ownerJid : String) (deletedJid : String)
deriving Repr, DecidableEq

/-- `handleStatusView` (lines 98-123): dedup via the viewed-status set,
then mark read and optionally react. -/
def handleStatusView (cfg : Config) (t cap ttl : Nat) (s : CacheState) (msg : Msg) :
    CacheState × List Effect :=
  let r := observeOnce t msg.key.id cap ttl s
  if r.2 then
    match msg.key.participant with
    | none => (r.1, [])
    | some _ =>
      (r.1, Effect.readMessages msg.key.id ::
        (if cfg.autoReactStatus && truthyStr cfg.statusReactionEmoji then
          [Effect.reactStatus msg.key.id (cfg.statusReactionEmoji.getD "")]
        else []))
  else (r.1, [])

/-- `handleAntiDelete` (lines 125-150). -/
def handleAntiDelete (cfg : Config) (msg : Msg) : List Effect :=
  match msg.message with
  | none => []
  | some content =>
    match content.protocolMessage with
    | none => []
    | some pm =>
      if pm.type != 0 then []
      else
        match pm.keyRemoteJid with
        | none => []
        | some jid =>
          if jid.isEmpty || jid == "status@broadcast" then []
          else [Effect.antiDeleteAlert (cfg.ownerNumber.getD "" ++ "@s.whatsapp.net") jid]

/-- `handleIncomingMessages` (lines 152-170): reads only
`chatUpdate.messages[0]` and dispatches status-view and anti-delete
handling for it. -/
def handleIncomingMessages (cfg : Config) (t cap ttl : Nat) (s : CacheState)
    (msgs : List Msg) : CacheState × List Effect :=
  match msgs.head? with
  | none => (s, [])
  | some m =>
    match m.message with
    | none => (s, [])
    | some _ =>
      let r :=
        if (m.key.remoteJid == some "status@broadcast") && cfg.autoViewStatus then
          handleStatusView cfg t cap ttl s m
        else (s, [])
      let eff2 := if cfg.antiDelete then handleAntiDelete cfg m else []
      (r.1, r.2 ++ eff2)

/-! The pairing coordinator. -/

inductive PairingOutcome
  | success (retryAttempts : Nat) (attempts : Nat)
  | exhausted (attempts : Nat)
deriving Repr, DecidableEq

/-- `getPairingCode` (lines 59-96). `res i` tells whether the `i`-th
pairing-code request (0-based) succeeds; `retryAttempts` is the module
counter at entry, `idx` the index of the attempt about to be made. On
success the counter is reset to 0 (line 80); on failure the catch block
retries while `retryAttempts < MAX_RETRY_ATTEMPTS`, incrementing the
counter (lines 85-89), and otherwise throws the terminal failure
(line 91). `attempts` in the outcome counts the requests actually made. -/
def getPairingCode (res : Nat → Bool) (retryAttempts idx : Nat) : PairingOutcome :=
  if res idx then PairingOutcome.success 0 (idx + 1)
  else if h : retryAttempts < MAX_RETRY_ATTEMPTS then
    getPairingCode res (retryAttempts + 1) (idx + 1)
  else PairingOutcome.exhausted (idx + 1)
termination_by MAX_RETRY_ATTEMPTS - retryAttempts
decreasing_by omega

/-! The connection supervisor: `handleConnectionUpdate`'s close branch
(lines 238-254), with side effects reified as commands in program order. -/

inductive DisconnectError
  | boom (statusCode : Nat)
  | other
deriving Repr, DecidableEq

/-- The close-reason classification (lines 243-245):
`lastDisconnect?.error instanceof Boom ? statusCode !== loggedOut : true`. -/
def shouldReconnect : Option DisconnectError → Bool
  | some (DisconnectError.boom sc) => sc != DisconnectReason_loggedOut
  | some DisconnectError.other => true
  | none => true

/-- `config.reconnectDelay || 5000` (lines 248, 312). -/
def effectiveReconnectDelay (cfg : Config) : Nat :=
  match cfg.reconnectDelay with
  | some d => if d = 0 then 5000 else d
  | none => 5000

inductive Cmd
  | clearPresence
  | clearStatusSync
  | scheduleBootstrap (delay : Nat)
  | exitProcess (code : Nat)
deriving Repr, DecidableEq

/-- The `connection === "close"` branch of `handleConnectionUpdate`
(lines 238-254), as its side effects in program order: clear both
maintenance intervals, then either schedule `startBot` after the
configured delay or exit the process with status 0. -/
def handleConnectionUpdateClose (err : Option DisconnectError) (cfg : Config) : List Cmd :=
  [Cmd.clearPresence, Cmd.clearStatusSync] ++
    (if shouldReconnect err then [Cmd.scheduleBootstrap (effectiveReconnectDelay cfg)]
     else [Cmd.exitProcess 0])

/-! A minimal event-loop view for counting pending `startBot` timers. -/

structure LoopState where
  pendingBootstraps : Nat
deriving Repr, DecidableEq

def applyCmd (s : LoopState) : Cmd → LoopState
  | Cmd.scheduleBootstrap _ => { pendingBootstraps := s.pendingBootstraps + 1 }
  | _ => s

/-- Deliver one `connection.update` close event to the handler and apply
its commands to the loop state. -/
def processCloseEvent (err : Option DisconnectError) (cfg : Config) (s : LoopState) :
    LoopState :=
  (handleConnectionUpdateClose err cfg).foldl applyCmd s

/-! `startBot` (lines 270-316): validation and every later failure are
caught by the same catch block, which schedules a retry after
`config.reconnectDelay || 5000`. Failures of the steps after validation
(auth state, version fetch, socket construction, pairing) are abstracted
as the `transportInit` argument. -/

inductive BootstrapResult
  | initialized
  | retryScheduled (delay : Nat)
deriving Repr, DecidableEq

def startBot (cfg : Config) (transportInit : Except String Unit) : BootstrapResult :=
  match validateConfig cfg with
  | Except.error _ => BootstrapResult.retryScheduled (effectiveReconnectDelay cfg)
  | Except.ok _ =>
    match transportInit with
    | Except.error _ => BootstrapResult.retryScheduled (effectiveReconnectDelay cfg)
    | Except.ok _ => BootstrapResult.initialized

/-! The maintenance scheduler: the two module-level interval handles,
with an interval recorded as `(startedAt, period)`. -/

structure TimerState where
  presenceInterval : Option (Nat × Nat)
  statusSyncInterval : Option (Nat × Nat)
deriving Repr, DecidableEq

/-- `startPresenceUpdates` (lines 197-208): replaces any existing
interval, fires one immediate presence update (the returned flag), then
repeats every `PRESENCE_UPDATE_INTERVAL`. -/
def startPresenceUpdates (t : Nat) (ts : TimerState) : TimerState × Bool :=
  ({ ts with presenceInterval := some (t, PRESENCE_UPDATE_INTERVAL) }, true)

/-- `startStatusSync` (lines 218-233): only when `autoViewStatus`;
no immediate fire, repeats every `STATUS_SYNC_INTERVAL`. -/
def startStatusSync (t : Nat) (cfg : Config) (ts : TimerState) : TimerState :=
  if cfg.autoViewStatus then { ts with statusSyncInterval := some (t, STATUS_SYNC_INTERVAL) }
  else ts

/-- The `connection === "open"` branch (lines 255-267) restricted to the
maintenance timers: start presence updates (immediate fire) and the
status re-sync interval. -/
def handleOpen (t : Nat) (cfg : Config) (ts : TimerState) : TimerState × Bool :=
  let r := startPresenceUpdates t ts
  (startStatusSync t cfg r.1, r.2)

def applyTimerCmd (ts : TimerState) : Cmd → TimerState
  | Cmd.clearPresence => { ts with presenceInterval := none }
  | Cmd.clearStatusSync => { ts with statusSyncInterval := none }
  | _ => ts

/-- A live interval `(s, i)` is due at `t` when `t = s + k*i` for some
`k ≥ 1` (the immediate fire at start is separate). -/
def intervalDueAt (iv : Option (Nat × Nat)) (t : Nat) : Prop :=
  ∃ s i, iv = some (s, i) ∧ ∃ k, 1 ≤ k ∧ t = s + k * i

/-! The spec's end-to-end timeline: connection opens at t = 0, the close
event is processed at t = 90000. The timer state at a time is the opened
state before the close and, from the close on, the result of applying the
close handler's commands. -/

def scenarioOpen (cfg : Config) : TimerState × Bool :=
  handleOpen 0 cfg { presenceInterval := none, statusSyncInterval := none }

def scenarioClosed (cfg : Config) (err : Option DisconnectError) : TimerState :=
  (handleConnectionUpdateClose err cfg).foldl applyTimerCmd (scenarioOpen cfg).1

def scenarioTimerAt (cfg : Config) (err : Option DisconnectError) (t : Nat) : TimerState :=
  if t < 90000 then (scenarioOpen cfg).1 else scenarioClosed cfg err

/-- The heartbeat fires at `t` when it is the immediate fire at the open,
or the presence interval live at `t` is due at `t`. -/
def heartbeatFiresAt (cfg : Config) (err : Option DisconnectError) (t : Nat) : Prop :=
  (t = 0 ∧ (scenarioOpen cfg).2 = true) ∨ intervalDueAt (scenarioTimerAt cfg err t).presenceInterval t

def statusSyncFiresAt (cfg : Config) (err : Option DisconnectError) (t : Nat) : Prop :=
  intervalDueAt (scenarioTimerAt cfg err t).statusSyncInterval t

/-! Sample configurations for concrete runs. -/

def cfgEx : Config :=
  { botName := some "BMX-BOT", ownerNumber := some "254700000000"
    reconnectDelay := some 5000, pairingDelay := some 10000
    autoViewStatus := true, autoReactStatus := false, statusReactionEmoji := none
    antiDelete := false, antiCall := false }

def badConfig : Config :=
  { botName := none, ownerNumber := some "254700000000"
    reconnectDelay := some 5000, pairingDelay := some 10000
    autoViewStatus := true, autoReactStatus := false, statusReactionEmoji := none
    antiDelete := false, antiCall := false }

/-- The CAPACITY = 3 insertion scenario a, b, c, d of the spec. -/
def evictionScenario : CacheState :=
  runObs 3 3600000 { entries := [], timers := [] }
    [("a", 0), ("b", 1), ("c", 2), ("d", 3)]

/-- The re-insertion scenario for the per-entry timers: CAPACITY = 3,
TTL = 100; "a" is inserted at 0, evicted by "d" at 3, re-inserted at 10. -/
def staleTimerScenario : CacheState :=
  runObs 3 100 { entries := [], timers := [] }
    [("a", 0), ("b", 1), ("c", 2), ("d", 3), ("a", 10)]

end BMXBot

namespace BMXBot

/-! Helper lemmas. -/

theorem cleanupViewedStatus_length_le (l : List String) (cap : Nat) :
    (cleanupViewedStatus l cap).length ≤ cap := by
  unfold cleanupViewedStatus
  split
  · rw [List.length_drop]; omega
  · omega

theorem cleanupViewedStatus_of_le (l : List String) (cap : Nat) (h : l.length ≤ cap) :
    cleanupViewedStatus l cap = l := by
  unfold cleanupViewedStatus
  rw [if_neg (by omega)]

theorem observeOnce_fresh_state (s : CacheState) (id : String) (t cap ttl : Nat)
    (hmem : id ∉ s.entries) (hcap : s.entries.length < cap) :
    (observeOnce t id cap ttl s).1 =
      { entries := s.entries ++ [id], timers := s.timers ++ [(id, t + ttl)] } ∧
    (observeOnce t id cap ttl s).2 = true := by
  have hlen : (s.entries ++ [id]).length ≤ cap := by
    rw [List.length_append]
    simp only [List.length_cons, List.length_nil]
    omega
  have hclean : cleanupViewedStatus (s.entries ++ [id]) cap = s.entries ++ [id] :=
    cleanupViewedStatus_of_le _ _ hlen
  unfold observeOnce
  rw [if_neg hmem]
  refine ⟨?_, rfl⟩
  rw [hclean]

theorem observeOnce_mem (t : Nat) (id : String) (cap ttl : Nat) (s : CacheState)
    (h : id ∈ s.entries) : observeOnce t id cap ttl s = (s, false) := by
  unfold observeOnce
  rw [if_pos h]

theorem mem_foldl_erase {x : String} :
    ∀ (ds : List (String × Nat)) (l : List String),
      x ∈ l → (∀ p ∈ ds, p.1 ≠ x) →
      x ∈ ds.foldl (fun es p => es.erase p.1) l := by
  intro ds
  induction ds with
  | nil => intro l hx _; simpa using hx
  | cons d ds ih =>
    intro l hx hds
    simp only [List.foldl_cons]
    refine ih _ ?_ ?_
    · exact (List.mem_erase_of_ne (fun h => (hds d (by simp)) h.symm)).mpr hx
    · intro p hp; exact hds p (by simp [hp])

theorem not_mem_foldl_erase_of_not_mem {x : String} :
    ∀ (ds : List (String × Nat)) (l : List String),
      x ∉ l → x ∉ ds.foldl (fun es p => es.erase p.1) l := by
  intro ds
  induction ds with
  | nil => intro l hx; simpa using hx
  | cons d ds ih =>
    intro l hx
    simp only [List.foldl_cons]
    exact ih _ (fun h => hx (List.mem_of_mem_erase h))

theorem not_mem_foldl_erase {x : String} :
    ∀ (ds : List (String × Nat)) (l : List String),
      l.count x ≤ 1 → (∃ p ∈ ds, p.1 = x) →
      x ∉ ds.foldl (fun es p => es.erase p.1) l := by
  intro ds
  induction ds with
  | nil => intro l _ hin; simp at hin
  | cons d ds ih =>
    intro l hcount hin
    simp only [List.foldl_cons]
    by_cases hd : d.1 = x
    · apply not_mem_foldl_erase_of_not_mem
      rw [hd]
      have h1 : (l.erase x).count x = l.count x - 1 := List.count_erase_self x l
      exact List.count_eq_zero.mp (by omega)
    · rcases hin with ⟨p, hp, hpx⟩
      rcases List.mem_cons.mp hp with h | h
      · exact absurd (h ▸ hpx) hd
      · exact ih (l.erase d.1)
          (le_trans (List.Sublist.count_le (List.erase_sublist _ _) x) hcount)
          ⟨p, h, hpx⟩

theorem fresh_mem_fireDue_of_lt (s : CacheState) (id : String) (t cap ttl T : Nat)
    (hmem : id ∉ s.entries) (htimer : ∀ p ∈ s.timers, p.1 ≠ id)
    (hcap : s.entries.length < cap) (hT : T < t + ttl) :
    id ∈ (fireDue T (observeOnce t id cap ttl s).1).entries := by
  obtain ⟨hstate, -⟩ := observeOnce_fresh_state s id t cap ttl hmem hcap
  rw [hstate]
  unfold fireDue
  simp only
  have hfilter : (s.timers ++ [(id, t + ttl)]).filter (fun p => decide (p.2 ≤ T)) =
      s.timers.filter (fun p => decide (p.2 ≤ T)) := by
    rw [List.filter_append]
    simp [Nat.not_le.mpr hT]
  rw [hfilter]
  apply mem_foldl_erase
  · exact List.mem_append_right _ (by simp)
  · intro p hp
    exact htimer p (List.mem_of_mem_filter hp)

theorem fresh_not_mem_fireDue_of_ge (s : CacheState) (id : String) (t cap ttl T : Nat)
    (hmem : id ∉ s.entries) (hcap : s.entries.length < cap) (hT : t + ttl ≤ T) :
    id ∉ (fireDue T (observeOnce t id cap ttl s).1).entries := by
  obtain ⟨hstate, -⟩ := observeOnce_fresh_state s id t cap ttl hmem hcap
  rw [hstate]
  unfold fireDue
  simp only
  apply not_mem_foldl_erase
  · rw [List.count_append]
    have h0 : s.entries.count id = 0 := List.count_eq_zero.mpr hmem
    simp [h0]
  · refine ⟨(id, t + ttl), List.mem_filter.mpr ⟨List.mem_append_right _ (by simp), by simpa using hT⟩, rfl⟩

theorem shouldReconnect_eq_false_iff (err : Option DisconnectError) :
    shouldReconnect err = false ↔
      err = some (DisconnectError.boom DisconnectReason_loggedOut) := by
  cases err with
  | none => simp [shouldReconnect]
  | some e =>
    cases e with
    | boom sc => simp [shouldReconnect]
    | other => simp [shouldReconnect]

theorem scenarioOpen_presence (cfg : Config) :
    (scenarioOpen cfg).1.presenceInterval = some (0, PRESENCE_UPDATE_INTERVAL) ∧
    (scenarioOpen cfg).2 = true := by
  unfold scenarioOpen handleOpen startPresenceUpdates startStatusSync
  by_cases h : cfg.autoViewStatus <;> simp [h]

theorem scenarioClosed_cleared (cfg : Config) (err : Option DisconnectError) :
    (scenarioClosed cfg err).presenceInterval = none ∧
    (scenarioClosed cfg err).statusSyncInterval = none := by
  unfold scenarioClosed handleConnectionUpdateClose
  by_cases h : shouldReconnect err <;> simp [h, applyTimerCmd]

end BMXBot

namespace BMXBot

/-! Claim theorems. -/

/-- C1: for every connection-close event, a disconnect error carrying the
logged-out status code leads to no scheduled bootstrap and a
success-status process exit; any other close event (including one with no
error) leads to exactly one scheduled bootstrap after the configured
reconnect delay, which defaults to 5000 ms, and no exit. -/
theorem connection_close_decision (err : Option DisconnectError) (cfg : Config) :
    (err = some (DisconnectError.boom DisconnectReason_loggedOut) →
      (∀ d, Cmd.scheduleBootstrap d ∉ handleConnectionUpdateClose err cfg) ∧
      Cmd.exitProcess 0 ∈ handleConnectionUpdateClose err cfg) ∧
    (err ≠ some (DisconnectError.boom DisconnectReason_loggedOut) →
      (handleConnectionUpdateClose err cfg).count
        (Cmd.scheduleBootstrap (effectiveReconnectDelay cfg)) = 1 ∧
      (∀ d, d ≠ effectiveReconnectDelay cfg →
        Cmd.scheduleBootstrap d ∉ handleConnectionUpdateClose err cfg) ∧
      (∀ c, Cmd.exitProcess c ∉ handleConnectionUpdateClose err cfg) ∧
      (cfg.reconnectDelay = none → effectiveReconnectDelay cfg = 5000)) := by
  constructor
  · intro h
    have hsr : shouldReconnect err = false := (shouldReconnect_eq_false_iff err).mpr h
    constructor
    · intro d
      simp [handleConnectionUpdateClose, hsr]
    · simp [handleConnectionUpdateClose, hsr]
  · intro h
    have hsr : shouldReconnect err = true := by
      cases hsr0 : shouldReconnect err with
      | false => exact absurd ((shouldReconnect_eq_false_iff err).mp hsr0) h
      | true => rfl
    refine ⟨?_, ?_, ?_, ?_⟩
    · simp [handleConnectionUpdateClose, hsr, List.count_cons]
    · intro d hd
      simp [handleConnectionUpdateClose, hsr, hd]
    · intro c
      simp [handleConnectionUpdateClose, hsr]
    · intro h5
      simp [effectiveReconnectDelay, h5]

/-- Witness for C1 at concrete inputs: a logged-out Boom close exits, and
an error-free close schedules one bootstrap after 5000 ms. -/
theorem connection_close_decision_witness :
    Cmd.exitProcess 0 ∈
      handleConnectionUpdateClose (some (DisconnectError.boom 401)) cfgEx ∧
    (handleConnectionUpdateClose none cfgEx).count
      (Cmd.scheduleBootstrap (effectiveReconnectDelay cfgEx)) = 1 :=
  ⟨((connection_close_decision (some (DisconnectError.boom 401)) cfgEx).1 rfl).2,
   ((connection_close_decision none cfgEx).2 (by decide)).1⟩

/-- C2 counterexample: starting from a retry counter of 0 with every
pairing-code request failing, the code makes 6 requests and raises the
terminal failure on the 6th failure, not on the 5th as claimed. -/
theorem pairing_fifth_failure_counterexample :
    getPairingCode (fun _ => false) 0 0 = PairingOutcome.exhausted 6 ∧
    getPairingCode (fun _ => false) 0 0 ≠ PairingOutcome.exhausted 5 := by
  have h : getPairingCode (fun _ => false) 0 0 = PairingOutcome.exhausted 6 := by
    simp [getPairingCode, MAX_RETRY_ATTEMPTS]
  exact ⟨h, by rw [h]; decide⟩

/-- C2 amended: starting from a retry counter of 0, if every
pairing-code request fails, the terminal pairing-exhausted failure is
raised on the 6th consecutive failure (one initial attempt plus
MAX_RETRY_ATTEMPTS = 5 retries), with no 7th attempt; and any successful
request resets the retry counter to 0. -/
theorem pairing_retry_bound :
    (∀ res : Nat → Bool, (∀ j, res j = false) →
      getPairingCode res 0 0 = PairingOutcome.exhausted 6) ∧
    (∀ (res : Nat → Bool) (retry idx : Nat), res idx = true →
      getPairingCode res retry idx = PairingOutcome.success 0 (idx + 1)) := by
  constructor
  · intro res hf
    simp [getPairingCode, hf, MAX_RETRY_ATTEMPTS]
  · intro res retry idx h
    simp [getPairingCode, h]

/-- Witness for C2's amended statement at concrete inputs. -/
theorem pairing_retry_bound_witness :
    getPairingCode (fun _ => false) 0 0 = PairingOutcome.exhausted 6 ∧
    getPairingCode (fun _ => true) 2 7 = PairingOutcome.success 0 8 :=
  ⟨pairing_retry_bound.1 (fun _ => false) (fun _ => rfl),
   pairing_retry_bound.2 (fun _ => true) 2 7 rfl⟩

/-- C3 counterexample: with `botName` missing, `validateConfig` fails,
yet `startBot` schedules an automatic bootstrap retry after the
reconnect delay instead of treating the configuration error as fatal. -/
theorem config_error_retried_counterexample :
    validateConfig badConfig = Except.error "Missing required config: botName" ∧
    startBot badConfig (Except.ok ()) = BootstrapResult.retryScheduled 5000 :=
  ⟨rfl, rfl⟩

/-- C3 amended: a configuration validation failure is caught by
bootstrap's catch-all handler, which schedules a bootstrap retry after
the configured reconnect delay, exactly like any other bootstrap
failure; it is not terminal. -/
theorem config_error_schedules_retry (cfg : Config) (ext : Except String Unit)
    (e : String) (h : validateConfig cfg = Except.error e) :
    startBot cfg ext = BootstrapResult.retryScheduled (effectiveReconnectDelay cfg) := by
  unfold startBot
  rw [h]

/-- Witness for C3's amended statement at a concrete invalid config. -/
theorem config_error_schedules_retry_witness :
    startBot badConfig (Except.ok ()) =
      BootstrapResult.retryScheduled (effectiveReconnectDelay badConfig) :=
  config_error_schedules_retry badConfig (Except.ok ())
    "Missing required config: botName" rfl

/-- C4 counterexample: two recoverable close events delivered before any
pending bootstrap timer fires leave two pending bootstrap timers, so the
claimed at-most-one-pending-bootstrap invariant fails. -/
theorem double_close_pending_counterexample :
    ¬ ((processCloseEvent none cfgEx (processCloseEvent none cfgEx
        { pendingBootstraps := 0 })).pendingBootstraps ≤ 1) := by decide

/-- C4 amended: every recoverable close event unconditionally schedules
exactly one more bootstrap — the supervisor never checks for an already
pending one, so pending bootstraps accumulate across close events — and
a logged-out close schedules none. -/
theorem close_event_pending_increase (err : Option DisconnectError) (cfg : Config)
    (s : LoopState) :
    (shouldReconnect err = true →
      (processCloseEvent err cfg s).pendingBootstraps = s.pendingBootstraps + 1) ∧
    (shouldReconnect err = false →
      (processCloseEvent err cfg s).pendingBootstraps = s.pendingBootstraps) := by
  constructor <;> intro h <;>
    simp [processCloseEvent, handleConnectionUpdateClose, h, applyCmd]

/-- Witness for C4's amended statement: a close arriving while one
bootstrap is already pending makes two pending. -/
theorem close_event_pending_increase_witness :
    (processCloseEvent none cfgEx { pendingBootstraps := 1 }).pendingBootstraps = 2 :=
  (close_event_pending_increase none cfgEx { pendingBootstraps := 1 }).1 rfl

/-- C5: immediately after any insertion of an id into the dedup cache,
the cache size is at most the capacity; the default capacity constant is
1000. -/
theorem insertion_respects_capacity (s : CacheState) (id : String) (t cap ttl : Nat)
    (h : id ∉ s.entries) :
    ((observeOnce t id cap ttl s).1).entries.length ≤ cap ∧
    MAX_VIEWED_STATUS_SIZE = 1000 := by
  refine ⟨?_, rfl⟩
  unfold observeOnce
  rw [if_neg h]
  exact cleanupViewedStatus_length_le _ _

/-- Witness for C5 at a concrete insertion. -/
theorem insertion_respects_capacity_witness :
    ((observeOnce 0 "a" 3 100 { entries := [], timers := [] }).1).entries.length ≤ 3 ∧
    MAX_VIEWED_STATUS_SIZE = 1000 :=
  insertion_respects_capacity { entries := [], timers := [] } "a" 0 3 100 (by decide)

/-- C6: the first observation of an id returns true and records it; a
subsequent observation of the same id before its TTL expiry (with no
intervening eviction) returns false, and in general observing an id that
is still recorded returns false and leaves the cache unchanged. -/
theorem observe_once_at_most_once (s : CacheState) (id : String) (t t2 cap ttl : Nat)
    (hmem : id ∉ s.entries) (htimer : ∀ p ∈ s.timers, p.1 ≠ id)
    (hcap : s.entries.length < cap) (hT : t2 < t + ttl) :
    (observeOnce t id cap ttl s).2 = true ∧
    (observeOnce t2 id cap ttl (fireDue t2 (observeOnce t id cap ttl s).1)).2 = false ∧
    (∀ s3 : CacheState, id ∈ s3.entries → observeOnce t2 id cap ttl s3 = (s3, false)) := by
  refine ⟨(observeOnce_fresh_state s id t cap ttl hmem hcap).2, ?_, ?_⟩
  · have hin : id ∈ (fireDue t2 (observeOnce t id cap ttl s).1).entries :=
      fresh_mem_fireDue_of_lt s id t cap ttl t2 hmem htimer hcap hT
    rw [observeOnce_mem t2 id cap ttl _ hin]
  · intro s3 h3
    exact observeOnce_mem t2 id cap ttl s3 h3

/-- Witness for C6 at a concrete pair of observations. -/
theorem observe_once_at_most_once_witness :
    (observeOnce 0 "a" 3 100 { entries := [], timers := [] }).2 = true ∧
    (observeOnce 50 "a" 3 100
      (fireDue 50 (observeOnce 0 "a" 3 100 { entries := [], timers := [] }).1)).2 = false :=
  have h := observe_once_at_most_once { entries := [], timers := [] } "a" 0 50 3 100
    (by decide) (by simp) (by decide) (by norm_num)
  ⟨h.1, h.2.1⟩

/-- C7: with capacity 3 and distinct ids inserted in order a, b, c, d,
capacity eviction removes the oldest-inserted id "a" first (the cache
then holds b, c, d), and a subsequent observation of "a" returns true
again. -/
theorem capacity_eviction_oldest_first :
    evictionScenario.entries = ["b", "c", "d"] ∧
    (observeOnce 4 "a" 3 3600000 (fireDue 4 evictionScenario)).2 = true := by
  constructor
  · rfl
  · decide

/-- C8 counterexample: with capacity 3 and TTL 100, "a" inserted at time
0 is capacity-evicted at time 3 and re-inserted at time 10; the stale
deletion timer from the first insertion fires at time 100 and removes
the re-inserted entry only 90 ms after the insertion that created it —
earlier than the TTL the claim requires. -/
theorem stale_timer_early_removal_counterexample :
    "a" ∈ staleTimerScenario.entries ∧
    "a" ∈ (fireDue 99 staleTimerScenario).entries ∧
    "a" ∉ (fireDue 100 staleTimerScenario).entries ∧
    (100 : Nat) < 10 + 100 := by decide

/-- C8 amended: an entry whose id has no still-pending deletion timer
from an earlier insertion is present strictly before, and absent from,
TTL after its insertion (absent capacity eviction); but an id
re-inserted after a prior eviction can be removed earlier, when the
prior insertion's still-pending timer fires. -/
theorem entry_ttl_expiry (s : CacheState) (id : String) (t cap ttl T : Nat)
    (hmem : id ∉ s.entries) (htimer : ∀ p ∈ s.timers, p.1 ≠ id)
    (hcap : s.entries.length < cap) :
    (T < t + ttl → id ∈ (fireDue T (observeOnce t id cap ttl s).1).entries) ∧
    (t + ttl ≤ T → id ∉ (fireDue T (observeOnce t id cap ttl s).1).entries) :=
  ⟨fun hT => fresh_mem_fireDue_of_lt s id t cap ttl T hmem htimer hcap hT,
   fun hT => fresh_not_mem_fireDue_of_ge s id t cap ttl T hmem hcap hT⟩

/-- Witness for C8's amended statement: a fresh entry inserted at time 0
with TTL 100 is still present at 99 and gone at 100. -/
theorem entry_ttl_expiry_witness :
    "a" ∈ (fireDue 99 (observeOnce 0 "a" 3 100 { entries := [], timers := [] }).1).entries ∧
    "a" ∉ (fireDue 100 (observeOnce 0 "a" 3 100 { entries := [], timers := [] }).1).entries :=
  ⟨(entry_ttl_expiry { entries := [], timers := [] } "a" 0 3 100 99
      (by decide) (by simp) (by decide)).1 (by norm_num),
   (entry_ttl_expiry { entries := [], timers := [] } "a" 0 3 100 100
      (by decide) (by simp) (by decide)).2 (by norm_num)⟩

end BMXBot

namespace BMXBot

/-- C9: in the spec's end-to-end timeline (open at t = 0, close processed
at t = 90000), the heartbeat fires immediately at t = 0 and again at
t = 60000, no heartbeat and no status-resubscription task fires at or
after the close, and the close handler emits both interval cancellations
before the reconnect-vs-terminate decision commands. -/
theorem heartbeat_lifecycle (cfg : Config) (err : Option DisconnectError) :
    heartbeatFiresAt cfg err 0 ∧
    heartbeatFiresAt cfg err 60000 ∧
    (∀ t, 90000 ≤ t → ¬ heartbeatFiresAt cfg err t) ∧
    (∀ t, 90000 ≤ t → ¬ statusSyncFiresAt cfg err t) ∧
    (handleConnectionUpdateClose err cfg).take 2 =
      [Cmd.clearPresence, Cmd.clearStatusSync] := by
  obtain ⟨hp, hfire⟩ := scenarioOpen_presence cfg
  obtain ⟨hc1, hc2⟩ := scenarioClosed_cleared cfg err
  refine ⟨Or.inl ⟨rfl, hfire⟩, ?_, ?_, ?_, ?_⟩
  · refine Or.inr ?_
    have hstate : (scenarioTimerAt cfg err 60000).presenceInterval =
        some (0, PRESENCE_UPDATE_INTERVAL) := by
      unfold scenarioTimerAt
      rw [if_pos (by norm_num)]
      exact hp
    exact ⟨0, PRESENCE_UPDATE_INTERVAL, hstate, 1, le_refl 1,
      by norm_num [PRESENCE_UPDATE_INTERVAL]⟩
  · intro t ht hcontra
    have hnone : (scenarioTimerAt cfg err t).presenceInterval = none := by
      unfold scenarioTimerAt
      rw [if_neg (by omega)]
      exact hc1
    rcases hcontra with ⟨h0, -⟩ | ⟨s0, i0, hsome, -⟩
    · omega
    · rw [hnone] at hsome
      exact Option.noConfusion hsome
  · intro t ht hcontra
    have hnone : (scenarioTimerAt cfg err t).statusSyncInterval = none := by
      unfold scenarioTimerAt
      rw [if_neg (by omega)]
      exact hc2
    rcases hcontra with ⟨s0, i0, hsome, -⟩
    rw [hnone] at hsome
    exact Option.noConfusion hsome
  · by_cases hsr : shouldReconnect err <;> simp [handleConnectionUpdateClose, hsr]

/-- Witness for C9 at a concrete time after the close. -/
theorem heartbeat_lifecycle_witness :
    ¬ heartbeatFiresAt cfgEx none 150000 ∧ ¬ statusSyncFiresAt cfgEx none 150000 :=
  ⟨(heartbeat_lifecycle cfgEx none).2.2.1 150000 (by norm_num),
   (heartbeat_lifecycle cfgEx none).2.2.2.1 150000 (by norm_num)⟩

/-- C10: for every messages.upsert batch, only the first message is
processed — the handler's result on a batch equals its result on the
batch's first message alone, and an empty batch does nothing. -/
theorem only_first_message_processed (cfg : Config) (t cap ttl : Nat) (s : CacheState)
    (m : Msg) (rest : List Msg) :
    handleIncomingMessages cfg t cap ttl s (m :: rest) =
      handleIncomingMessages cfg t cap ttl s [m] ∧
    handleIncomingMessages cfg t cap ttl s [] = (s, []) :=
  ⟨rfl, rfl⟩

end BMXBot
